import Mathlib

/-!
Verification of the deadline-and-cancellation propagation demo: a shallow
embedding of the echo server handler (`src/echoserver/echoserver.go`), its
two-task group `simTwoTasks`, and the cancellation-scope (Go `context`)
semantics the handler relies on, together with proofs of the specified
properties.
-/

namespace GoGrpcCancelDemo

/-- Terminal cause of a cancellation scope (a Go `context.Context`):
`context.Canceled` or `context.DeadlineExceeded`. -/
inductive Cause
  | canceled
  | deadlineExceeded
deriving DecidableEq, Repr

/-- A Go `error` value as used by the demo handler: `nil` (`none`) or a
context cause. -/
abbrev GoError := Option Cause

/-! ### Cancellation-scope state machine

Modelled from the spec: the CancellationScope component (§3, §4.1) is
implemented by Go's `context` package, which is not part of this repository.
A scope's cause starts as `none`; it can be fired by its `cancelFn`, by its
own deadline elapsing, or by an ancestor firing; the transition is a
compare-and-set from `none` to a terminal cause (§5), so the first firing
wins and later firings are no-ops. `tick` models time passing without any
firing condition being met. -/

/-- An event observed by a single scope during its lifetime. -/
inductive ScopeEvent
  | cancelFn
  | deadlineElapsed
  | ancestorFired (c : Cause)
  | tick
deriving DecidableEq, Repr

/-- The cause an event would fire a scope with (`none` for `tick`: time
passing does not by itself fire a scope). An ancestor firing propagates its
cause to the descendant. -/
def fireCause : ScopeEvent → Option Cause
  | .cancelFn => some .canceled
  | .deadlineElapsed => some .deadlineExceeded
  | .ancestorFired c => some c
  | .tick => none

/-- One transition of a scope's cause cell: a compare-and-set from `none`;
a scope that already has a cause ignores every further event. -/
def scopeStep (s : Option Cause) (e : ScopeEvent) : Option Cause :=
  match s with
  | some c => some c
  | none => fireCause e

/-- Run a scope through a sequence of events. -/
def scopeRun (s : Option Cause) (es : List ScopeEvent) : Option Cause :=
  es.foldl scopeStep s

/-- `ctx.Done()` has fired / `ctx.Err() != nil`: non-blocking liveness
check of a scope. -/
def isDone (s : Option Cause) : Bool := s.isSome

/-! ### The task-group collector loop

`simTwoTasks` (echoserver.go lines 59-67) collects one error per task from
the unbuffered channel `collectErrs`, in completion order:

```
var lastErr error
for i := 0; i < numTasks; i++ {
    lastErr = <-collectErrs
    if lastErr != nil {
        cancel()
    }
}
return lastErr
```
-/

/-- The value of `lastErr` after the collector loop has consumed the whole
sequence of reported errors: every receive overwrites `lastErr`
unconditionally. -/
def collectLast (errs : List GoError) : GoError :=
  errs.foldl (fun _ e => e) none

/-- An observable action of the collector loop: receiving a task's reported
error from `collectErrs`, or invoking `cancel()` on the shared scope. -/
inductive CollectEvent
  | recv (e : GoError)
  | cancelShared
deriving DecidableEq, Repr

/-- The trace of the collector loop over the reported-error sequence: each
iteration receives one error and, when it is non-`nil`, immediately invokes
`cancel()` before the next receive. -/
def collectTrace : List GoError → List CollectEvent
  | [] => []
  | e :: rest =>
      if e.isSome then CollectEvent.recv e :: CollectEvent.cancelShared :: collectTrace rest
      else CollectEvent.recv e :: collectTrace rest

/-! ### Operational model of the `simTwoTasks` run under an unfired request scope

`simTwoTasks` (echoserver.go lines 32-70) derives `ctxWithCancel` from the
inbound request scope via `context.WithCancel`, then spawns:

* task one (lines 41-49): derives a child of `ctxWithCancel` with a
  10-nanosecond deadline, blocks on `<-ctx.Done()`, and sends `ctx.Err()`
  on `collectErrs`;
* task two (lines 51-57): blocks on `<-ctxWithCancel.Done()` and sends
  `ctxWithCancel.Err()` on `collectErrs`.

The state below tracks the shared scope's cause, task one's scope's cause,
which tasks have completed their send, and the errors the collector has
received, in order. The request scope is unfired throughout the run, so it
never fires either child scope. `collectErrs` is unbuffered and the single
collector invokes `cancel()` synchronously before its next receive, so each
report rendezvous together with the collector's conditional `cancel()` is one
atomic step. -/

structure SimState where
  sharedCause : Option Cause
  aCause : Option Cause
  aReported : Bool
  bReported : Bool
  received : List GoError
deriving DecidableEq, Repr

/-- The state at the top of `simTwoTasks`: no scope has fired, no task has
reported. -/
def initSim : SimState :=
  { sharedCause := none, aCause := none, aReported := false, bReported := false,
    received := [] }

/-- One scheduler step of the `simTwoTasks` run (request scope unfired):
task one's deadline fires, a fired shared scope propagates to task one's
scope, or a task whose awaited scope has fired rendezvous with the collector
(which invokes `cancel()` on a non-`nil` report, firing the shared scope with
cause `canceled` if it has none). Scope writes are compare-and-set from
`none`, matching `scopeStep`. -/
inductive SimStep : SimState → SimState → Prop
  | fireADeadline (s : SimState) (h : s.aCause = none) :
      SimStep s { s with aCause := some .deadlineExceeded }
  | propagateShared (s : SimState) (c : Cause) (ha : s.aCause = none)
      (hs : s.sharedCause = some c) :
      SimStep s { s with aCause := some c }
  | reportA (s : SimState) (c : Cause) (h : s.aCause = some c)
      (hr : s.aReported = false) :
      SimStep s { s with
        aReported := true,
        received := s.received ++ [some c],
        sharedCause := if s.sharedCause = none then some .canceled else s.sharedCause }
  | reportB (s : SimState) (c : Cause) (h : s.sharedCause = some c)
      (hr : s.bReported = false) :
      SimStep s { s with
        bReported := true,
        received := s.received ++ [some c] }

/-- States reachable from the start of the `simTwoTasks` run. -/
def SimReachable (s : SimState) : Prop :=
  Relation.ReflTransGen SimStep initSim s

/-- After task one's 10ns deadline fires. -/
def simS1 : SimState := { initSim with aCause := some .deadlineExceeded }

/-- After task one reports `DeadlineExceeded` and the collector cancels the
shared scope. -/
def simS2 : SimState :=
  { simS1 with
    aReported := true,
    received := [some .deadlineExceeded],
    sharedCause := some .canceled }

/-- After task two reports `Canceled`. -/
def simS3 : SimState :=
  { simS2 with
    bReported := true,
    received := [some .deadlineExceeded, some .canceled] }

/-- The run under an unfired request scope is forced: exactly four states are
reachable. -/
theorem simReachable_cases (s : SimState) (h : SimReachable s) :
    s = initSim ∨ s = simS1 ∨ s = simS2 ∨ s = simS3 := by
  induction h with
  | refl => exact Or.inl rfl
  | tail hab hbc ih =>
    rcases ih with rfl | rfl | rfl | rfl <;> cases hbc <;>
      simp_all [initSim, simS1, simS2, simS3]

/-! ### The echo service -/

/-- `echopb.ServerAction_UNSPECIFIED` (echo.pb.go line 27). -/
def ServerAction_UNSPECIFIED : Int := 0

/-- `echopb.ServerAction_RETURN_CONTEXT_DEADLINE_EXCEEDED` (echo.pb.go line 28). -/
def ServerAction_RETURN_CONTEXT_DEADLINE_EXCEEDED : Int := 1

/-- `echopb.ServerAction_RETURN_CONTEXT_CANCELED` (echo.pb.go line 29). -/
def ServerAction_RETURN_CONTEXT_CANCELED : Int := 2

/-- `echopb.EchoRequest` (echo.pb.go lines 73-80). `serverSleep` is a
duration in nanoseconds (`nil` protobuf duration reads as 0); `action` is an
open `int32` enum field, so it can carry values outside the declared
enumeration. -/
structure EchoRequest where
  input : String
  serverSleep : Nat
  action : Int
deriving DecidableEq, Repr

/-- `echopb.EchoResponse` (echo.pb.go lines 136-141). -/
structure EchoResponse where
  output : String
deriving DecidableEq, Repr

/-- The wire status codes the demo uses (`google.golang.org/grpc/codes`). -/
inductive StatusCode
  | ok
  | cancelled
  | deadlineExceeded
  | invalidArgument
deriving DecidableEq, Repr

/-- An error returned by the `Echo` handler: a Go context cause
(`context.Canceled` / `context.DeadlineExceeded`) or an explicit gRPC status
error built with `status.Errorf`. -/
inductive HandlerError
  | ctxErr (c : Cause)
  | statusErr (code : StatusCode)
deriving DecidableEq, Repr

/-- Modelled from the spec: the server-side OutcomeTranslator (§4.3) is the
gRPC library's conversion of a handler result into a wire status, which is
not part of this repository: `nil` error maps to `OK`, `context.Canceled` to
`CANCELLED`, `context.DeadlineExceeded` to `DEADLINE_EXCEEDED`, and an
explicit status error keeps its code. -/
def toWireStatus : Option HandlerError → StatusCode
  | none => .ok
  | some (.ctxErr .canceled) => .cancelled
  | some (.ctxErr .deadlineExceeded) => .deadlineExceeded
  | some (.statusErr code) => code

/-- Modelled from the spec: the cause observed by awaiting a positive-duration
`context.WithTimeout` child of `parent` until done, when nothing else fires
it (echoserver.go lines 89-92 await a 10ns-deadline child of the request
scope). Per §3's propagation invariant (Go: a child created under, or fired
by, an already-done parent carries the parent's error), a fired parent gives
the child the parent's cause; otherwise the child's own deadline fires it
with `deadlineExceeded`. -/
def awaitTimeoutCause : Option Cause → Cause
  | some c => c
  | none => .deadlineExceeded

/-- The value of `lastErr` returned by `simTwoTasks` (echoserver.go lines
32-70) as a function of the inbound request scope's cause. With an unfired
request scope the reported-error order is forced (see `simReachable_cases`):
task one reports `DeadlineExceeded`, the collector cancels the shared scope,
and task two then reports `Canceled`. With an already-fired request scope of
cause `c`, both children carry `c` (§3 propagation), so both tasks report
`c`. -/
def simTwoTasks (ctxCause : Option Cause) : GoError :=
  match ctxCause with
  | none => collectLast [some .deadlineExceeded, some .canceled]
  | some c => collectLast [some c, some c]

/-- The `server` struct (echoserver.go lines 17-21): the configured
`responseSleep` duration in nanoseconds. The atomic request counter only
feeds log output. -/
structure Server where
  responseSleep : Nat
deriving DecidableEq, Repr

/-- The observable result of one `Echo` call: the returned response and
error, plus the duration passed to the `time.Sleep` call of the normal path
(echoserver.go line 116; 0 on the paths that never reach it). -/
structure EchoResult where
  resp : Option EchoResponse
  err : Option HandlerError
  slept : Nat
deriving DecidableEq, Repr

/-- The `Echo` handler (echoserver.go lines 72-124), given the inbound
request scope's cause at handler entry. The `switch request.Action` cases:
`UNSPECIFIED` falls through to the normal path, which sleeps for the larger
of the server's `responseSleep` and the request's `ServerSleep` and echoes
the input; `RETURN_CONTEXT_DEADLINE_EXCEEDED` awaits a 10ns-deadline child
of the request scope and returns its cause;
`RETURN_CONTEXT_CANCELED` returns `simTwoTasks`'s error; any other value
returns a `codes.InvalidArgument` status error. -/
def Echo (s : Server) (ctxCause : Option Cause) (request : EchoRequest) :
    EchoResult :=
  if request.action = ServerAction_UNSPECIFIED then
    let sleep := s.responseSleep
    let requestSleep := request.serverSleep
    let sleep := if sleep < requestSleep then requestSleep else sleep
    { resp := some { output := "echoed: " ++ request.input }, err := none,
      slept := sleep }
  else if request.action = ServerAction_RETURN_CONTEXT_DEADLINE_EXCEEDED then
    { resp := none, err := some (.ctxErr (awaitTimeoutCause ctxCause)), slept := 0 }
  else if request.action = ServerAction_RETURN_CONTEXT_CANCELED then
    { resp := none, err := (simTwoTasks ctxCause).map .ctxErr, slept := 0 }
  else
    { resp := none, err := some (.statusErr .invalidArgument), slept := 0 }

/-! ### The caller boundary -/

/-- The wire status a local scope cause translates to. -/
def causeToStatus : Cause → StatusCode
  | .canceled => .cancelled
  | .deadlineExceeded => .deadlineExceeded

/-- Modelled from the spec: the caller-boundary issue step (§4.3) is the gRPC
client library, which is not part of this repository (the client driver in
the repository only asserts its observable behavior). A call issued on a
scope whose cause is already non-`none` does not reach the service boundary
and synthesizes the wire status of the local cause; otherwise the request is
sent and the server's wire status is returned. Result: whether a request
reached the service boundary, and the status the caller observes. -/
def clientIssue (localCause : Option Cause) (serverStatus : StatusCode) :
    Bool × StatusCode :=
  match localCause with
  | some c => (false, causeToStatus c)
  | none => (true, serverStatus)

/-! ### Theorems -/

/-- C1: TaskGroup merge policy (last reporter wins): for every non-empty
sequence of per-task terminal causes collected by the group collector, after
all tasks have reported, the group's terminal outcome (`lastErr`) equals the
cause reported by the last task to report, whatever non-`none` causes were
collected earlier. -/
theorem taskGroup_last_reporter_wins (errs : List GoError) (h : errs ≠ []) :
    collectLast errs = errs.getLast h := by
  induction errs with
  | nil => exact absurd rfl h
  | cons e rest ih =>
    cases rest with
    | nil => rfl
    | cons e2 rest2 =>
      rw [List.getLast_cons (List.cons_ne_nil _ _)]
      rw [← ih (List.cons_ne_nil _ _)]
      simp [collectLast]

/-- Witness for C1 at the run order of the demo's two-task group: task one
reports deadline-exceeded first, task two reports cancelled last, and the
outcome is the last report (cancelled), not the first. -/
theorem taskGroup_last_reporter_wins_witness :
    collectLast [some Cause.deadlineExceeded, some Cause.canceled]
      = List.getLast [some Cause.deadlineExceeded, some Cause.canceled]
          (List.cons_ne_nil _ _) :=
  taskGroup_last_reporter_wins _ (List.cons_ne_nil _ _)

/-- C3: as soon as the collector receives the first non-`none` cause (after
any prefix of `none` reports), it invokes `cancel()` on the shared scope
before receiving any further result: the loop trace is the prefix receives,
then the non-`none` receive immediately followed by `cancelShared`, and only
then the trace of the remaining reports. -/
theorem collector_cancels_on_first_error (p rest : List GoError) (c : Cause)
    (hp : ∀ e ∈ p, e = none) :
    collectTrace (p ++ some c :: rest)
      = p.map CollectEvent.recv
          ++ CollectEvent.recv (some c) :: CollectEvent.cancelShared :: collectTrace rest := by
  induction p with
  | nil => simp [collectTrace]
  | cons e p2 ih =>
    have he : e = none := hp e (List.mem_cons_self _ _)
    subst he
    simp only [List.cons_append, collectTrace, Option.isSome_none, Bool.false_eq_true,
      if_false, List.map_cons, List.append_eq]
    rw [ih (fun x hx => hp x (List.mem_cons_of_mem _ hx))]

/-- Witness for C3 with one successful report before the first error. -/
theorem collector_cancels_on_first_error_witness :
    collectTrace ([(none : GoError)] ++ some Cause.deadlineExceeded :: [some Cause.canceled])
      = [(none : GoError)].map CollectEvent.recv
          ++ CollectEvent.recv (some Cause.deadlineExceeded)
            :: CollectEvent.cancelShared
            :: collectTrace [some Cause.canceled] :=
  collector_cancels_on_first_error [none] [some Cause.canceled]
    Cause.deadlineExceeded (by simp)

/-- C4: a scope's terminal cause is monotonic and write-once: as long as no
firing event (cancelFn, own deadline, ancestor firing) occurs, the cause
stays `none`; once the cause is non-`none`, any further event sequence
leaves it unchanged (so firing again is a no-op) and `isDone` stays true. -/
theorem scope_cause_write_once (es es2 : List ScopeEvent) (c : Cause)
    (h : ∀ e ∈ es, fireCause e = none) :
    scopeRun none es = none ∧ scopeRun (some c) es2 = some c
      ∧ isDone (some c) = true := by
  refine ⟨?_, ?_, rfl⟩
  · induction es with
    | nil => rfl
    | cons e rest ih =>
      have he : fireCause e = none := h e (List.mem_cons_self _ _)
      show scopeRun (scopeStep none e) rest = none
      rw [show scopeStep none e = none from he]
      exact ih (fun x hx => h x (List.mem_cons_of_mem _ hx))
  · induction es2 with
    | nil => rfl
    | cons e rest ih =>
      show scopeRun (scopeStep (some c) e) rest = some c
      exact ih

/-- Witness for C4: time passing alone leaves a fresh scope unfired; a scope
cancelled once ignores a later deadline event. -/
theorem scope_cause_write_once_witness :
    scopeRun none [ScopeEvent.tick] = none
      ∧ scopeRun (some Cause.canceled) [ScopeEvent.deadlineElapsed, ScopeEvent.tick]
          = some Cause.canceled
      ∧ isDone (some Cause.canceled) = true :=
  scope_cause_write_once [ScopeEvent.tick]
    [ScopeEvent.deadlineElapsed, ScopeEvent.tick] Cause.canceled (by decide)

/-- The final state of the `simTwoTasks` run under an unfired request scope
is reachable. -/
theorem simS3_reachable : SimReachable simS3 := by
  have h1 : SimStep initSim simS1 := SimStep.fireADeadline initSim rfl
  have h2 : SimStep simS1 simS2 := SimStep.reportA simS1 Cause.deadlineExceeded rfl rfl
  have h3 : SimStep simS2 simS3 := SimStep.reportB simS2 Cause.canceled rfl rfl
  exact Relation.ReflTransGen.head h1
    (Relation.ReflTransGen.head h2 (Relation.ReflTransGen.single h3))

/-- C2: on a not-yet-fired request scope, every complete run of the two-task
group (both tasks reported) has collected exactly task A's deadline-exceeded
report followed by task B's cancelled report, so `lastErr` is cancelled; and
`Echo` with `action = RETURN_CONTEXT_CANCELED` on such a scope returns wire
status `CANCELLED`, not `DEADLINE_EXCEEDED`. -/
theorem echo_return_context_canceled (s : SimState) (hs : SimReachable s)
    (ha : s.aReported = true) (hb : s.bReported = true)
    (srv : Server) (req : EchoRequest)
    (hreq : req.action = ServerAction_RETURN_CONTEXT_CANCELED) :
    s.received = [some Cause.deadlineExceeded, some Cause.canceled]
      ∧ collectLast s.received = some Cause.canceled
      ∧ toWireStatus (Echo srv none req).err = StatusCode.cancelled := by
  rcases simReachable_cases s hs with rfl | rfl | rfl | rfl <;>
    simp_all [initSim, simS1, simS2, simS3, Echo, simTwoTasks, collectLast,
      toWireStatus, ServerAction_UNSPECIFIED,
      ServerAction_RETURN_CONTEXT_DEADLINE_EXCEEDED,
      ServerAction_RETURN_CONTEXT_CANCELED]

/-- Witness for C2 at the complete run's final state and a concrete request. -/
theorem echo_return_context_canceled_witness :
    simS3.received = [some Cause.deadlineExceeded, some Cause.canceled]
      ∧ collectLast simS3.received = some Cause.canceled
      ∧ toWireStatus (Echo { responseSleep := 0 } none
            { input := "x", serverSleep := 0,
              action := ServerAction_RETURN_CONTEXT_CANCELED }).err
          = StatusCode.cancelled :=
  echo_return_context_canceled simS3 simS3_reachable rfl rfl
    { responseSleep := 0 }
    { input := "x", serverSleep := 0, action := ServerAction_RETURN_CONTEXT_CANCELED }
    rfl

/-- C10: `simTwoTasks` always returns a non-`nil` cause, never success: both
tasks report only after their awaited scope has fired, so every error the
collector receives is non-`nil` (shown for every reachable collector state),
and so is `lastErr`. -/
theorem simTwoTasks_never_success (ctxCause : Option Cause) (s : SimState)
    (hs : SimReachable s) (e : GoError) (he : e ∈ s.received) :
    (simTwoTasks ctxCause).isSome = true ∧ e.isSome = true := by
  constructor
  · cases ctxCause <;> simp [simTwoTasks, collectLast]
  · rcases simReachable_cases s hs with rfl | rfl | rfl | rfl <;>
      simp_all [initSim, simS1, simS2, simS3]
    rcases he with rfl | rfl <;> rfl

/-- Witness for C10 at an unfired request scope and the complete run's final
state. -/
theorem simTwoTasks_never_success_witness :
    (simTwoTasks none).isSome = true
      ∧ (some Cause.canceled : GoError).isSome = true :=
  simTwoTasks_never_success none simS3 simS3_reachable (some Cause.canceled)
    (by decide)

/-- C5: a call issued on a local scope whose cause is already non-`none`
never reaches the service boundary, and the caller immediately observes the
wire status synthesized from the local cause: `CANCELLED` for cancelled,
`DEADLINE_EXCEEDED` for deadline-exceeded — whatever the server would have
answered. -/
theorem preFired_scope_short_circuits (c : Cause) (st : StatusCode) :
    (clientIssue (some c) st).1 = false
      ∧ clientIssue (some Cause.canceled) st = (false, StatusCode.cancelled)
      ∧ clientIssue (some Cause.deadlineExceeded) st
          = (false, StatusCode.deadlineExceeded) := by
  cases c <;> simp [clientIssue, causeToStatus]

/-- C6 counterexample: with the inbound request scope already cancelled at
handler entry, `Echo` with `action = RETURN_CONTEXT_DEADLINE_EXCEEDED` does
not return wire status `DEADLINE_EXCEEDED` (the awaited 10ns child scope
inherits the parent's cancelled cause, so the wire status is `CANCELLED`). -/
theorem echo_deadline_action_counterexample :
    toWireStatus (Echo { responseSleep := 0 } (some Cause.canceled)
        { input := "x", serverSleep := 0,
          action := ServerAction_RETURN_CONTEXT_DEADLINE_EXCEEDED }).err
      ≠ StatusCode.deadlineExceeded := by
  decide

/-- C6 (amended): `Echo` with `action = RETURN_CONTEXT_DEADLINE_EXCEEDED`
returns wire status `DEADLINE_EXCEEDED` whenever the inbound request scope is
not already cancelled at handler entry (unfired, or already
deadline-exceeded); an already-cancelled inbound scope instead yields wire
status `CANCELLED`, the inherited cause. -/
theorem echo_deadline_action (srv : Server) (ctxCause : Option Cause)
    (req : EchoRequest)
    (hreq : req.action = ServerAction_RETURN_CONTEXT_DEADLINE_EXCEEDED)
    (hctx : ctxCause ≠ some Cause.canceled) :
    toWireStatus (Echo srv ctxCause req).err = StatusCode.deadlineExceeded
      ∧ toWireStatus (Echo srv (some Cause.canceled) req).err
          = StatusCode.cancelled := by
  rcases ctxCause with _ | c
  · simp [Echo, hreq, toWireStatus, awaitTimeoutCause,
      ServerAction_UNSPECIFIED, ServerAction_RETURN_CONTEXT_DEADLINE_EXCEEDED]
  · cases c
    · exact absurd rfl hctx
    · simp [Echo, hreq, toWireStatus, awaitTimeoutCause,
        ServerAction_UNSPECIFIED, ServerAction_RETURN_CONTEXT_DEADLINE_EXCEEDED]

/-- Witness for C6 (amended) at an unfired inbound scope. -/
theorem echo_deadline_action_witness :
    toWireStatus (Echo { responseSleep := 0 } none
        { input := "x", serverSleep := 0,
          action := ServerAction_RETURN_CONTEXT_DEADLINE_EXCEEDED }).err
      = StatusCode.deadlineExceeded
      ∧ toWireStatus (Echo { responseSleep := 0 } (some Cause.canceled)
            { input := "x", serverSleep := 0,
              action := ServerAction_RETURN_CONTEXT_DEADLINE_EXCEEDED }).err
          = StatusCode.cancelled :=
  echo_deadline_action { responseSleep := 0 } none
    { input := "x", serverSleep := 0,
      action := ServerAction_RETURN_CONTEXT_DEADLINE_EXCEEDED }
    rfl (by decide)

/-- C7: a normal call (`action = UNSPECIFIED`, `server_sleep = 0`) returns a
response whose output is `"echoed: "` concatenated with the request's input,
with no error, hence wire status `OK` — whatever the inbound scope's state. -/
theorem echo_normal_path (srv : Server) (ctxCause : Option Cause)
    (req : EchoRequest) (hact : req.action = ServerAction_UNSPECIFIED)
    (_hsleep : req.serverSleep = 0) :
    (Echo srv ctxCause req).resp = some { output := "echoed: " ++ req.input }
      ∧ (Echo srv ctxCause req).err = none
      ∧ toWireStatus (Echo srv ctxCause req).err = StatusCode.ok := by
  simp [Echo, hact, toWireStatus, ServerAction_UNSPECIFIED]

/-- Witness for C7 at a concrete request. -/
theorem echo_normal_path_witness :
    (Echo { responseSleep := 0 } none
        { input := "hi", serverSleep := 0, action := ServerAction_UNSPECIFIED }).resp
      = some { output := "echoed: " ++ "hi" }
      ∧ (Echo { responseSleep := 0 } none
            { input := "hi", serverSleep := 0, action := ServerAction_UNSPECIFIED }).err
          = none
      ∧ toWireStatus (Echo { responseSleep := 0 } none
            { input := "hi", serverSleep := 0, action := ServerAction_UNSPECIFIED }).err
          = StatusCode.ok :=
  echo_normal_path { responseSleep := 0 } none
    { input := "hi", serverSleep := 0, action := ServerAction_UNSPECIFIED }
    rfl rfl

/-- C8: on the normal path, both the server's configured `responseSleep` and
the request's `ServerSleep` act as minimum sleep durations: the duration
passed to `time.Sleep` is their maximum. -/
theorem echo_sleep_is_max (srv : Server) (ctxCause : Option Cause)
    (req : EchoRequest) (hact : req.action = ServerAction_UNSPECIFIED) :
    (Echo srv ctxCause req).slept = max srv.responseSleep req.serverSleep := by
  simp only [Echo, hact, ServerAction_UNSPECIFIED, if_true, reduceIte]
  rcases Nat.lt_or_ge srv.responseSleep req.serverSleep with h | h
  · simp [h, Nat.max_eq_right (Nat.le_of_lt h)]
  · simp [Nat.not_lt.mpr h, Nat.max_eq_left h]

/-- Witness for C8 where the request's sleep dominates. -/
theorem echo_sleep_is_max_witness :
    (Echo { responseSleep := 3 } none
        { input := "x", serverSleep := 7, action := ServerAction_UNSPECIFIED }).slept
      = max 3 7 :=
  echo_sleep_is_max { responseSleep := 3 } none
    { input := "x", serverSleep := 7, action := ServerAction_UNSPECIFIED } rfl

/-- C9: a request whose action value lies outside the declared enumeration
{UNSPECIFIED, RETURN_CONTEXT_DEADLINE_EXCEEDED, RETURN_CONTEXT_CANCELED}
yields no response and wire status `INVALID_ARGUMENT`. -/
theorem echo_unknown_action (srv : Server) (ctxCause : Option Cause)
    (req : EchoRequest)
    (h0 : req.action ≠ ServerAction_UNSPECIFIED)
    (h1 : req.action ≠ ServerAction_RETURN_CONTEXT_DEADLINE_EXCEEDED)
    (h2 : req.action ≠ ServerAction_RETURN_CONTEXT_CANCELED) :
    (Echo srv ctxCause req).resp = none
      ∧ toWireStatus (Echo srv ctxCause req).err = StatusCode.invalidArgument := by
  simp [Echo, h0, h1, h2, toWireStatus]

/-- Witness for C9 at the out-of-range action value 3. -/
theorem echo_unknown_action_witness :
    (Echo { responseSleep := 0 } none
        { input := "x", serverSleep := 0, action := 3 }).resp = none
      ∧ toWireStatus (Echo { responseSleep := 0 } none
            { input := "x", serverSleep := 0, action := 3 }).err
          = StatusCode.invalidArgument :=
  echo_unknown_action { responseSleep := 0 } none
    { input := "x", serverSleep := 0, action := 3 }
    (by decide) (by decide) (by decide)

end GoGrpcCancelDemo
